import Mathlib

/-!
Verification development for the container reconfiguration and
resource-attachment engine of the docker-manager backend
(`src/backend/app/services/docker_service.py`).

The Python service drives an external container runtime.  We embed the
engine shallowly:

* Python strings that get split on `:` (bind-mount strings, mount fields)
  are modelled as `List Char` (`Str`); other strings stay `String`.
* Every runtime call issued by the engine is recorded in a trace
  (`List RCall`); the outcome of each call is given by an `Oracle`
  (`none` = the call succeeds, `some e` = the call raises `e`).
* Fallible methods return `Except` of the error kinds the Python code can
  raise, paired with the trace of runtime calls that were issued.
-/

deriving instance DecidableEq for Except

namespace DockerManager

/-- Python strings that undergo `split(':')` are modelled as char lists. -/
abbrev Str := List Char

/-- Python's `s.split(sep)` for a one-character separator:
`"".split(':') == ['']`, and every separator occurrence opens a new
segment. -/
def pySplit (sep : Char) : List Char → List (List Char)
  | [] => [[]]
  | c :: rest =>
    let r := pySplit sep rest
    if c = sep then [] :: r
    else
      match r with
      | [] => [[c]]
      | h :: t => (c :: h) :: t

/-- The decoding fragment of `update_container` (docker_service.py lines
209-210): `if ':' in vol: source, dest = vol.split(':')[:2]`.  Yields the
first two `:`-separated segments, or `none` when the string has fewer
than two segments (no colon); any mode segment is not decoded. -/
def decodeVol (vol : Str) : Option (Str × Str) :=
  match pySplit ':' vol with
  | src :: dst :: _ => some (src, dst)
  | _ => none

/-- The encoding fragment of `update_container` (lines 217-219):
`bind_str = f"{Source}:{Destination}"`, and `if 'Mode' in mount:
bind_str += f":{Mode}"`.  The mode segment is appended whenever the
mount record carries a `Mode` entry, regardless of its value. -/
def encodeBind (source destination : Str) (mode : Option Str) : Str :=
  source ++ ':' :: destination ++
    (match mode with
     | some m => ':' :: m
     | none => [])

/-- One entry of a container's `Mounts` attribute, with the fields the
engine reads: `Type`, `Source`, `Destination` and the optional `Mode`. -/
structure MountRec where
  type : String
  source : Str
  destination : Str
  mode : Option Str
deriving DecidableEq, Repr

/-- The slice of `container.attrs` (plus `container.name` /
`container.status`) that `update_container` and
`attach_volume_to_container` read. -/
structure Attrs where
  /-- `attrs['Config']['Image']` -/
  image : String
  /-- `attrs['Config'].get('Env', [])` -/
  env : List String
  /-- `attrs.get('Mounts', [])` -/
  mounts : List MountRec
  /-- `list(attrs['NetworkSettings']['Networks'].keys())` -/
  networks : List String
  /-- `attrs['HostConfig'].get('PortBindings', {})`, as an association list -/
  ports : List (String × String)
  /-- `attrs['HostConfig'].get('Binds', [])` -/
  hostBinds : List Str
  /-- `container.name` -/
  name : String
  /-- `container.status` -/
  status : String
deriving DecidableEq, Repr

/-- The partial update request of `update_container`: every field of the
`updates` dict is independently optional (`none` = key absent). -/
structure Updates where
  image : Option String
  environment : Option (List String)
  volumes : Option (List Str)
  networks : Option (List String)
  ports : Option (List (String × String))
deriving DecidableEq, Repr

/-- The keyword arguments `update_container` passes to
`self.client.containers.run` (lines 234-242).  Note that the `binds`
list computed at lines 206-220 is NOT among them: only the `volumes`
dict (whose keys are destination paths mapped to `{}`) is passed, so
mount sources and modes never reach the recreate call. -/
structure RunConfig where
  image : String
  name : String
  environment : List String
  /-- `volumes=volumes if volumes else None` — the dict keys, in insertion order -/
  volumes : Option (List Str)
  /-- `ports=ports if ports else None` -/
  ports : Option (List (String × String))
  /-- `network=networks[0] if networks else None` -/
  network : Option String
deriving DecidableEq, Repr

/-- The keyword arguments `attach_volume_to_container` passes to
`self.client.containers.create` (lines 607-614), including the binds
via `create_host_config(binds=binds)`. -/
structure CreateConfig where
  image : String
  name : String
  environment : List String
  ports : List (String × String)
  /-- `volumes={mount_point: {}}` — the single dict key -/
  volumes : List Str
  binds : List Str
deriving DecidableEq, Repr

/-- The two docker-py exception classes the service's handlers
distinguish: `NotFound` and (other) `APIError`. -/
inductive RtErr where
  | notFound
  | apiError
deriving DecidableEq, Repr

/-- A runtime-control call issued by the engine.  `run` both creates and
starts the new container (`detach=True`); `create` only creates it, and
`start` starts it separately. -/
inductive RCall where
  | getContainer (cid : String)
  | stop
  | remove
  | run (cfg : RunConfig)
  | netGet (name : String)
  | connect (name : String)
  | create (cfg : CreateConfig)
  | start
deriving DecidableEq, Repr

/-- Outcome of each runtime call: `none` = success, `some e` = raises. -/
abbrev Oracle := RCall → Option RtErr

/-- The error kinds `update_container` can surface: the two `raise
Exception(...)` sites at lines 253-256.  Both carry only a message
string; neither carries the pre-change configuration snapshot. -/
inductive UpdateError where
  /-- `except NotFound: raise Exception(f"Container {container_id} not found")` -/
  | containerNotFound (cid : String)
  /-- `except APIError: raise Exception(f"Failed to update container: ...")` -/
  | updateFailed
deriving DecidableEq, Repr

/-- The error kinds `attach_volume_to_container` can surface (lines
586-588 and 620-623). -/
inductive AttachError where
  /-- `raise Exception(f"Volume {volume_name} is already attached to this container")` -/
  | alreadyAttached (volumeName : Str)
  /-- `except NotFound: raise Exception(f"Container or volume not found")` -/
  | notFound
  /-- `except APIError: raise Exception(f"Failed to attach volume: ...")` -/
  | attachFailed
deriving DecidableEq, Repr

/-- Python dict-key insertion: `d[k] = v` keeps an existing key's
position and appends a new key at the end. -/
def pyDictInsert (keys : List Str) (k : Str) : List Str :=
  if k ∈ keys then keys else keys ++ [k]

/-- The volumes/binds computation of `update_container` (lines 204-221):
if the patch sets `volumes`, each entry containing a colon contributes
its destination to the `volumes` dict and itself to `binds` (entries
without a colon are skipped); otherwise current mounts of type `bind`
are re-encoded.  Returns (volumes-dict keys, binds). -/
def volsBinds (a : Attrs) (u : Updates) : List Str × List Str :=
  match u.volumes with
  | some vs =>
    vs.foldl
      (fun acc vol =>
        match decodeVol vol with
        | some (_src, dst) => (pyDictInsert acc.1 dst, acc.2 ++ [vol])
        | none => acc)
      ([], [])
  | none =>
    a.mounts.foldl
      (fun acc m =>
        if m.type = "bind" then
          (pyDictInsert acc.1 m.destination,
           acc.2 ++ [encodeBind m.source m.destination m.mode])
        else acc)
      ([], [])

/-- The merged configuration `update_container` builds at lines 200-227
and passes to `containers.run` at lines 234-242. -/
def mergedRunConfig (a : Attrs) (u : Updates) : RunConfig :=
  let image := u.image.getD a.image
  let environment := u.environment.getD a.env
  let vb := volsBinds a u
  let networks := u.networks.getD a.networks
  let ports := u.ports.getD a.ports
  { image := image
    name := a.name
    environment := environment
    volumes := if vb.1.isEmpty then none else some vb.1
    ports := if ports.isEmpty then none else some ports
    network := networks.head? }

/-- How the `except NotFound` / `except APIError` handlers of
`update_container` map a raised runtime error (lines 253-256). -/
def mapRtErr (cid : String) : RtErr → UpdateError
  | .notFound => .containerNotFound cid
  | .apiError => .updateFailed

/-- The reattachment loop of `update_container` (lines 244-250): for
each secondary network, `networks.get` is attempted; only if it succeeds
is `connect` attempted; any exception is swallowed (`except Exception:
pass`) and the loop continues. -/
def reattachTrace (o : Oracle) (ns : List String) : List RCall :=
  ns.foldl
    (fun acc n =>
      if o (.netGet n) = none then acc ++ [.netGet n, .connect n]
      else acc ++ [.netGet n])
    []

/-- `DockerService.update_container` (lines 192-256), given the attrs
the initial `containers.get` would return.  Returns the result (success
message or raised error) and the trace of runtime calls issued. -/
def update_container (o : Oracle) (cid : String) (a : Attrs) (u : Updates) :
    Except UpdateError String × List RCall :=
  match o (.getContainer cid) with
  | some e => (.error (mapRtErr cid e), [.getContainer cid])
  | none =>
    let cfg := mergedRunConfig a u
    let networks := u.networks.getD a.networks
    match o .stop with
    | some e => (.error (mapRtErr cid e), [.getContainer cid, .stop])
    | none =>
      match o .remove with
      | some e => (.error (mapRtErr cid e), [.getContainer cid, .stop, .remove])
      | none =>
        match o (.run cfg) with
        | some e =>
          (.error (mapRtErr cid e),
           [.getContainer cid, .stop, .remove, .run cfg])
        | none =>
          (.ok ("Container " ++ cid ++ " updated and recreated"),
           [.getContainer cid, .stop, .remove, .run cfg] ++
             reattachTrace o (networks.drop 1))

/-- How the handlers of `attach_volume_to_container` map a raised
runtime error (lines 620-623). -/
def mapAttachErr : RtErr → AttachError
  | .notFound => .notFound
  | .apiError => .attachFailed

/-- `DockerService.attach_volume_to_container` (lines 568-623), given
the attrs the initial `containers.get` would return.  The conflict check
(lines 586-588) runs before any mutating call; `was_running` gates both
the stop and the final start. -/
def attach_volume_to_container (o : Oracle) (cid : String) (a : Attrs)
    (volume_name mount_point mode : Str) :
    Except AttachError String × List RCall :=
  match o (.getContainer cid) with
  | some e => (.error (mapAttachErr e), [.getContainer cid])
  | none =>
    if a.mounts.any (fun m => m.source == volume_name) then
      (.error (.alreadyAttached volume_name), [.getContainer cid])
    else
      let wasRunning := a.status == "running"
      let stopTrace : List RCall := if wasRunning then [.stop] else []
      let stopOutcome : Option RtErr := if wasRunning then o .stop else none
      match stopOutcome with
      | some e => (.error (mapAttachErr e), .getContainer cid :: stopTrace)
      | none =>
        match o .remove with
        | some e =>
          (.error (mapAttachErr e), .getContainer cid :: stopTrace ++ [.remove])
        | none =>
          let binds := a.hostBinds ++
            [volume_name ++ ':' :: mount_point ++ ':' :: mode]
          let ccfg : CreateConfig :=
            { image := a.image
              name := a.name
              environment := a.env
              ports := a.ports
              volumes := [mount_point]
              binds := binds }
          match o (.create ccfg) with
          | some e =>
            (.error (mapAttachErr e),
             .getContainer cid :: stopTrace ++ [.remove, .create ccfg])
          | none =>
            if wasRunning then
              match o .start with
              | some e =>
                (.error (mapAttachErr e),
                 .getContainer cid :: stopTrace ++ [.remove, .create ccfg, .start])
              | none =>
                (.ok "Volume attached to container",
                 .getContainer cid :: stopTrace ++ [.remove, .create ccfg, .start])
            else
              (.ok "Volume attached to container",
               .getContainer cid :: stopTrace ++ [.remove, .create ccfg])

/-- The `cpu_usage` sub-record of a stats sample: `total_usage` plus the
optional `percpu_usage` list (`.get('percpu_usage', [1])`). -/
structure CpuUsage where
  total_usage : ℤ
  percpu_usage : Option (List ℤ)
deriving DecidableEq, Repr

/-- One of the two cumulative CPU samples in a stats response
(`cpu_stats` / `precpu_stats`). -/
structure CpuStats where
  cpu_usage : CpuUsage
  system_cpu_usage : ℤ
deriving DecidableEq, Repr

/-- The CPU-count factor of the percentage formula, as the code derives
it at line 50: `len(stats['cpu_stats']['cpu_usage'].get('percpu_usage',
[1]))` — the length of the current sample's per-CPU usage list,
defaulting to 1 when the list is absent. -/
def online_cpu_count (cur : CpuStats) : ℕ :=
  (cur.cpu_usage.percpu_usage.getD [1]).length

/-- The per-container CPU percentage computed by `get_system_info`
(lines 44-51): when the system delta is positive it is
`(cpuDelta / systemDelta) * online_cpu_count * 100.0`; otherwise the
container contributes nothing (0) to the total. -/
def cpu_percent (precpu cur : CpuStats) : ℚ :=
  let cpuDelta : ℤ := cur.cpu_usage.total_usage - precpu.cpu_usage.total_usage
  let systemDelta : ℤ := cur.system_cpu_usage - precpu.system_cpu_usage
  if 0 < systemDelta then
    ((cpuDelta : ℚ) / (systemDelta : ℚ)) * (online_cpu_count cur : ℚ) * 100
  else 0

/-- The `status_counts` dict of `get_system_info` (line 28): one bucket
per known status plus `other`. -/
structure StatusCounts where
  running : ℕ
  exited : ℕ
  stopped : ℕ
  created : ℕ
  paused : ℕ
  other : ℕ
deriving DecidableEq, Repr

/-- All-zero initial `status_counts`. -/
def initCounts : StatusCounts := ⟨0, 0, 0, 0, 0, 0⟩

/-- One iteration of the counting loop (lines 32-37):
`status = container.status.lower()`; the matching bucket is incremented,
and any unknown status lands in `other`. -/
def bumpStatus (acc : StatusCounts) (rawStatus : String) : StatusCounts :=
  let status := rawStatus.toLower
  if status = "running" then { acc with running := acc.running + 1 }
  else if status = "exited" then { acc with exited := acc.exited + 1 }
  else if status = "stopped" then { acc with stopped := acc.stopped + 1 }
  else if status = "created" then { acc with created := acc.created + 1 }
  else if status = "paused" then { acc with paused := acc.paused + 1 }
  else { acc with other := acc.other + 1 }

/-- The full counting loop over the statuses of `containers.list(all=True)`. -/
def countStatuses (statuses : List String) : StatusCounts :=
  statuses.foldl bumpStatus initCounts

/-- Total of all six buckets. -/
def sumCounts (c : StatusCounts) : ℕ :=
  c.running + c.stopped + c.exited + c.created + c.paused + c.other

/-- The container-count fields of the dict returned by
`get_system_info` (lines 61-67): the five named buckets plus
`containers_total = len(containers)`; the `other` bucket stays
internal. -/
structure SystemInfoCounts where
  containers_running : ℕ
  containers_stopped : ℕ
  containers_exited : ℕ
  containers_created : ℕ
  containers_paused : ℕ
  containers_total : ℕ
deriving DecidableEq, Repr

/-- The container-count part of `get_system_info`, as a function of the
statuses of the listed containers. -/
def systemInfoCounts (statuses : List String) : SystemInfoCounts :=
  let sc := countStatuses statuses
  { containers_running := sc.running
    containers_stopped := sc.stopped
    containers_exited := sc.exited
    containers_created := sc.created
    containers_paused := sc.paused
    containers_total := statuses.length }

/-! ### Helper lemmas -/

theorem pySplit_ne_nil (sep : Char) (l : List Char) : pySplit sep l ≠ [] := by
  cases l with
  | nil => simp [pySplit]
  | cons c rest =>
    simp only [pySplit]
    by_cases h : c = sep
    · simp [h]
    · simp only [h, if_false]
      cases pySplit sep rest with
      | nil => simp
      | cons x xs => simp

theorem pySplit_cons (sep c : Char) (l : List Char) (hc : ¬ c = sep) :
    pySplit sep (c :: l) =
      match pySplit sep l with
      | [] => [[c]]
      | h :: t => (c :: h) :: t := by
  simp [pySplit, hc]

theorem pySplit_of_not_mem {sep : Char} {l : List Char} (h : sep ∉ l) :
    pySplit sep l = [l] := by
  induction l with
  | nil => rfl
  | cons c rest ih =>
    simp only [List.mem_cons, not_or] at h
    have hc : ¬ c = sep := fun hcs => h.1 hcs.symm
    rw [pySplit_cons sep c rest hc, ih h.2]

theorem pySplit_append {sep : Char} {l t : List Char} (h : sep ∉ l) :
    pySplit sep (l ++ sep :: t) = l :: pySplit sep t := by
  induction l with
  | nil => simp [pySplit]
  | cons c rest ih =>
    simp only [List.mem_cons, not_or] at h
    have hc : ¬ c = sep := fun hcs => h.1 hcs.symm
    rw [List.cons_append, pySplit_cons sep c _ hc, ih h.2]

theorem mem_pyDictInsert (keys : List Str) (k x : Str) :
    x ∈ pyDictInsert keys k ↔ x ∈ keys ∨ x = k := by
  unfold pyDictInsert
  by_cases h : k ∈ keys
  · simp only [h, if_true]
    constructor
    · exact Or.inl
    · rintro (hx | rfl)
      · exact hx
      · exact h
  · simp [h]

/-- Fully successful `update_container`: result and exact trace. -/
theorem update_container_ok (o : Oracle) (cid : String) (a : Attrs) (u : Updates)
    (hg : o (.getContainer cid) = none) (hs : o .stop = none)
    (hr : o .remove = none) (hc : o (.run (mergedRunConfig a u)) = none) :
    update_container o cid a u =
      (.ok ("Container " ++ cid ++ " updated and recreated"),
       [.getContainer cid, .stop, .remove, .run (mergedRunConfig a u)] ++
         reattachTrace o ((u.networks.getD a.networks).drop 1)) := by
  simp [update_container, hg, hs, hr, hc]

/-- Every network in the loop's list is looked up (`netGet` appears in
the reattachment trace), whatever the outcomes of earlier lookups or
connects. -/
theorem netGet_mem_reattachTrace (o : Oracle) (ns : List String) (n : String)
    (hn : n ∈ ns) : RCall.netGet n ∈ reattachTrace o ns := by
  unfold reattachTrace
  have key : ∀ (ms : List String) (acc : List RCall),
      (∀ c ∈ acc, c ∈ ms.foldl
        (fun acc n =>
          if o (.netGet n) = none then acc ++ [.netGet n, .connect n]
          else acc ++ [.netGet n]) acc) ∧
      (∀ m ∈ ms, RCall.netGet m ∈ ms.foldl
        (fun acc n =>
          if o (.netGet n) = none then acc ++ [.netGet n, .connect n]
          else acc ++ [.netGet n]) acc) := by
    intro ms
    induction ms with
    | nil => intro acc; exact ⟨fun c hc => hc, fun m hm => absurd hm (List.not_mem_nil m)⟩
    | cons x xs ih =>
      intro acc
      constructor
      · intro c hc
        simp only [List.foldl_cons]
        apply (ih _).1
        by_cases hx : o (.netGet x) = none <;> simp [hx, hc]
      · intro m hm
        simp only [List.foldl_cons]
        rcases List.mem_cons.mp hm with rfl | hm'
        · apply (ih _).1
          by_cases hx : o (.netGet m) = none <;> simp [hx]
        · exact (ih _).2 m hm'
  exact (key ns []).2 n hn

/-- In the patch branch of the volumes computation, `binds` collects
exactly the entries that decode (contain a colon), in order. -/
theorem volsBinds_some_binds (a : Attrs) (u : Updates) (vs : List Str)
    (h : u.volumes = some vs) :
    (volsBinds a u).2 = vs.filter (fun v => (decodeVol v).isSome) := by
  unfold volsBinds
  rw [h]
  have key : ∀ (l : List Str) (ks bs : List Str),
      (l.foldl
        (fun acc vol =>
          match decodeVol vol with
          | some (_src, dst) => (pyDictInsert acc.1 dst, acc.2 ++ [vol])
          | none => acc) (ks, bs)).2 =
        bs ++ l.filter (fun v => (decodeVol v).isSome) := by
    intro l
    induction l with
    | nil => intro ks bs; simp
    | cons v vl ih =>
      intro ks bs
      simp only [List.foldl_cons, List.filter_cons]
      cases hv : decodeVol v with
      | none => simp [hv, ih]
      | some p =>
        cases p with
        | mk src dst => simp [hv, ih]
  simpa using key vs [] []

/-- In the snapshot branch, `binds` re-encodes exactly the mounts of
type `bind`, in order. -/
theorem volsBinds_none_binds (a : Attrs) (u : Updates) (h : u.volumes = none) :
    (volsBinds a u).2 =
      (a.mounts.filter (fun m => decide (m.type = "bind"))).map
        (fun m => encodeBind m.source m.destination m.mode) := by
  unfold volsBinds
  rw [h]
  have key : ∀ (l : List MountRec) (ks bs : List Str),
      (l.foldl
        (fun acc m =>
          if m.type = "bind" then
            (pyDictInsert acc.1 m.destination,
             acc.2 ++ [encodeBind m.source m.destination m.mode])
          else acc) (ks, bs)).2 =
        bs ++ (l.filter (fun m => decide (m.type = "bind"))).map
          (fun m => encodeBind m.source m.destination m.mode) := by
    intro l
    induction l with
    | nil => intro ks bs; simp
    | cons m ml ih =>
      intro ks bs
      simp only [List.foldl_cons, List.filter_cons]
      by_cases hm : m.type = "bind" <;> simp [hm, ih]
  simpa using key a.mounts [] []

/-- In the snapshot branch, the keys of the `volumes` dict are exactly
the destinations of the mounts of type `bind`. -/
theorem volsBinds_none_keys (a : Attrs) (u : Updates) (h : u.volumes = none)
    (d : Str) :
    d ∈ (volsBinds a u).1 ↔
      ∃ m ∈ a.mounts, m.type = "bind" ∧ m.destination = d := by
  unfold volsBinds
  rw [h]
  have key : ∀ (l : List MountRec) (ks bs : List Str),
      (d ∈ (l.foldl
        (fun acc m =>
          if m.type = "bind" then
            (pyDictInsert acc.1 m.destination,
             acc.2 ++ [encodeBind m.source m.destination m.mode])
          else acc) (ks, bs)).1 ↔
        d ∈ ks ∨ ∃ m ∈ l, m.type = "bind" ∧ m.destination = d) := by
    intro l
    induction l with
    | nil => intro ks bs; simp
    | cons m ml ih =>
      intro ks bs
      simp only [List.foldl_cons]
      by_cases hm : m.type = "bind"
      · rw [if_pos hm]
        rw [ih]
        rw [mem_pyDictInsert]
        constructor
        · rintro ((hk | rfl) | ⟨m', hm', hty, hdst⟩)
          · exact Or.inl hk
          · exact Or.inr ⟨m, List.mem_cons_self m ml, hm, rfl⟩
          · exact Or.inr ⟨m', List.mem_cons_of_mem m hm', hty, hdst⟩
        · rintro (hk | ⟨m', hm', hty, hdst⟩)
          · exact Or.inl (Or.inl hk)
          · rcases List.mem_cons.mp hm' with rfl | hml
            · exact Or.inl (Or.inr hdst.symm)
            · exact Or.inr ⟨m', hml, hty, hdst⟩
      · rw [if_neg hm]
        rw [ih]
        constructor
        · rintro (hk | ⟨m', hm', hty, hdst⟩)
          · exact Or.inl hk
          · exact Or.inr ⟨m', List.mem_cons_of_mem m hm', hty, hdst⟩
        · rintro (hk | ⟨m', hm', hty, hdst⟩)
          · exact Or.inl hk
          · rcases List.mem_cons.mp hm' with rfl | hml
            · exact absurd hty hm
            · exact Or.inr ⟨m', hml, hty, hdst⟩
  simpa using key a.mounts [] []

/-- Each processed status increments exactly one bucket. -/
theorem sumCounts_bumpStatus (acc : StatusCounts) (s : String) :
    sumCounts (bumpStatus acc s) = sumCounts acc + 1 := by
  simp only [bumpStatus, sumCounts]
  repeat' split
  all_goals simp
  all_goals omega

/-- The counting loop counts every container exactly once. -/
theorem sumCounts_countStatuses (statuses : List String) :
    sumCounts (countStatuses statuses) = statuses.length := by
  unfold countStatuses
  have key : ∀ (l : List String) (acc : StatusCounts),
      sumCounts (l.foldl bumpStatus acc) = sumCounts acc + l.length := by
    intro l
    induction l with
    | nil => intro acc; simp
    | cons s sl ih =>
      intro acc
      simp only [List.foldl_cons, ih, sumCounts_bumpStatus, List.length_cons]
      omega
  simpa [initCounts, sumCounts] using key statuses initCounts

/-! ### Concrete fixtures -/

/-- Oracle under which every runtime call succeeds. -/
def allOk : Oracle := fun _ => none

/-- A named-volume mount record (Docker `Mounts` entry of type `volume`). -/
def mVolume : MountRec :=
  { type := "volume"
    source := "appdata".toList
    destination := "/data".toList
    mode := some "rw".toList }

/-- A running container attached to two networks, with one named-volume
mount. -/
def aWeb : Attrs :=
  { image := "nginx:1.25"
    env := ["MODE=prod"]
    mounts := [mVolume]
    networks := ["frontend", "backend"]
    ports := []
    hostBinds := []
    name := "web-1"
    status := "running" }

/-- The empty patch: every `updates` key absent. -/
def noUpdates : Updates :=
  { image := none, environment := none, volumes := none
    networks := none, ports := none }

/-- Oracle: the `containers.run` recreate call raises `APIError`;
everything else succeeds. -/
def oCreateFails : Oracle := fun c =>
  match c with
  | .run _ => some .apiError
  | _ => none

/-- Oracle: `stop` raises `APIError`; everything else succeeds. -/
def oStopFails : Oracle := fun c =>
  match c with
  | .stop => some .apiError
  | _ => none

/-- Oracle: `remove` raises `APIError`; everything else succeeds. -/
def oRemoveFails : Oracle := fun c =>
  match c with
  | .remove => some .apiError
  | _ => none

/-- Oracle: connecting to the `backend` network raises `APIError`;
everything else succeeds. -/
def oConnectBackendFails : Oracle := fun c =>
  match c with
  | .connect "backend" => some .apiError
  | _ => none

/-- The same container, not running. -/
def aExited : Attrs := { aWeb with status := "exited" }

/-! ### Claims -/

/-- C1, counterexample.  The claim says the recreate configuration
equals the snapshot `S` on every field the patch leaves absent.  It
fails on the volumes field: with the empty patch, a snapshot containing
a named-volume mount (`Type = "volume"`) yields a recreate call with
`volumes=None` — the mount is dropped entirely (only `Type == "bind"`
mounts are re-encoded, and even for those only the destination keys are
passed to `containers.run`; the computed `binds` list is never passed). -/
theorem C1_counterexample :
    aWeb.mounts ≠ [] ∧
    RCall.run (mergedRunConfig aWeb noUpdates) ∈
      (update_container allOk "web-1" aWeb noUpdates).2 ∧
    (mergedRunConfig aWeb noUpdates).volumes = none := by decide

/-- C1, amended.  Under a fully successful runtime, `update_container`
issues a recreate call whose configuration merges snapshot and patch
per whole field for image, environment, networks (primary network =
head of the merged list) and ports; for the volumes field the behaviour
is not a per-field merge: when the patch sets `volumes`, only entries
containing a colon are kept in `binds`; when it leaves it absent, only
mounts of type `bind` are re-encoded; and in either case the recreate
call receives only the destination keys (the `binds` list is computed
but never passed to `containers.run`). -/
theorem C1_theorem (o : Oracle) (cid : String) (a : Attrs) (u : Updates)
    (ho : ∀ c, o c = none) :
    RCall.run (mergedRunConfig a u) ∈ (update_container o cid a u).2 ∧
    (mergedRunConfig a u).image = u.image.getD a.image ∧
    (mergedRunConfig a u).environment = u.environment.getD a.env ∧
    (mergedRunConfig a u).network = (u.networks.getD a.networks).head? ∧
    (mergedRunConfig a u).ports =
      (if (u.ports.getD a.ports).isEmpty then none
       else some (u.ports.getD a.ports)) ∧
    (∀ vs, u.volumes = some vs →
      (volsBinds a u).2 = vs.filter (fun v => (decodeVol v).isSome)) ∧
    (u.volumes = none →
      (volsBinds a u).2 =
        (a.mounts.filter (fun m => decide (m.type = "bind"))).map
          (fun m => encodeBind m.source m.destination m.mode)) ∧
    ((mergedRunConfig a u).volumes =
      if (volsBinds a u).1.isEmpty then none else some (volsBinds a u).1) ∧
    (u.volumes = none → ∀ d, d ∈ (volsBinds a u).1 ↔
      ∃ m ∈ a.mounts, m.type = "bind" ∧ m.destination = d) := by
  refine ⟨?_, rfl, rfl, rfl, rfl, ?_, ?_, rfl, ?_⟩
  · rw [update_container_ok o cid a u (ho _) (ho _) (ho _) (ho _)]
    simp
  · intro vs h
    exact volsBinds_some_binds a u vs h
  · intro h
    exact volsBinds_none_binds a u h
  · intro h d
    exact volsBinds_none_keys a u h d

/-- C1, witness: the amended theorem applied to the concrete running
container and the empty patch. -/
theorem C1_witness :
    RCall.run (mergedRunConfig aWeb noUpdates) ∈
      (update_container allOk "web-1" aWeb noUpdates).2 ∧
    (mergedRunConfig aWeb noUpdates).image = "nginx:1.25" ∧
    (mergedRunConfig aWeb noUpdates).network = some "frontend" := by
  have h := C1_theorem allOk "web-1" aWeb noUpdates (fun c => rfl)
  exact ⟨h.1, h.2.1, h.2.2.2.1⟩

/-- C2, counterexample.  The claim says a create-step failure after a
successful remove surfaces as the distinct error kind `RecreationLost`
carrying the pre-change snapshot.  In the code both a create failure and
a stop failure raise the very same generic
`Exception("Failed to update container: ...")` (modelled as
`UpdateError.updateFailed`, a bare constructor carrying no snapshot), so
the failure kind is not distinct and no snapshot is attached. -/
theorem C2_counterexample :
    (update_container oCreateFails "web-1" aWeb noUpdates).1 =
      .error .updateFailed ∧
    (update_container oStopFails "web-1" aWeb noUpdates).1 =
      .error .updateFailed := by decide

/-- C2, amended.  When `stop` and `remove` succeed but the recreate
(`containers.run`) call raises `APIError`, `update_container` terminates
with the generic update failure (the same error kind as any other
`APIError` in the method, with no snapshot attached), and the trace ends
at the failed recreate call: no start, no network lookup or connect, and
no second create to restore the old container. -/
theorem C2_theorem (o : Oracle) (cid : String) (a : Attrs) (u : Updates)
    (hg : o (.getContainer cid) = none) (hs : o .stop = none)
    (hr : o .remove = none)
    (hc : o (.run (mergedRunConfig a u)) = some .apiError) :
    update_container o cid a u =
      (.error .updateFailed,
       [.getContainer cid, .stop, .remove, .run (mergedRunConfig a u)]) := by
  simp [update_container, hg, hs, hr, hc, mapRtErr]

/-- C2, witness: the amended theorem applied to the concrete failing
create. -/
theorem C2_witness :
    update_container oCreateFails "web-1" aWeb noUpdates =
      (.error .updateFailed,
       [.getContainer "web-1", .stop, .remove,
        .run (mergedRunConfig aWeb noUpdates)]) :=
  C2_theorem oCreateFails "web-1" aWeb noUpdates rfl rfl rfl rfl

/-- C3 (confirmed).  A runtime failure while stopping or removing aborts
`update_container` with an error, and the trace stops at the failed
call: no recreate (`run`), no network lookup or connect is ever issued,
so the original container is left in place. -/
theorem C3_theorem (o : Oracle) (cid : String) (a : Attrs) (u : Updates)
    (hg : o (.getContainer cid) = none) :
    (∀ e, o .stop = some e →
      update_container o cid a u =
        (.error (mapRtErr cid e), [.getContainer cid, .stop])) ∧
    (∀ e, o .stop = none → o .remove = some e →
      update_container o cid a u =
        (.error (mapRtErr cid e), [.getContainer cid, .stop, .remove])) := by
  constructor
  · intro e hs
    simp [update_container, hg, hs]
  · intro e hs hr
    simp [update_container, hg, hs, hr]

/-- C3, witness: a failing stop and a failing remove, each leaving a
trace with no destructive step after the failure. -/
theorem C3_witness :
    update_container oStopFails "web-1" aWeb noUpdates =
      (.error .updateFailed, [.getContainer "web-1", .stop]) ∧
    update_container oRemoveFails "web-1" aWeb noUpdates =
      (.error .updateFailed, [.getContainer "web-1", .stop, .remove]) :=
  ⟨(C3_theorem oStopFails "web-1" aWeb noUpdates rfl).1 .apiError rfl,
   (C3_theorem oRemoveFails "web-1" aWeb noUpdates rfl).2 .apiError rfl rfl⟩

/-- C4, counterexample.  The claim says failed reattachments are
returned to the caller in a non-empty warnings list.  In the code every
per-network exception is swallowed (`except Exception: pass`) and the
success payload is only `{status, message}`: with `connect("backend")`
failing, the caller-visible result is byte-for-byte identical to the
all-success result — there is no warnings list at all (the connect was
attempted, as the trace shows). -/
theorem C4_counterexample :
    (update_container oConnectBackendFails "web-1" aWeb noUpdates).1 =
      (update_container allOk "web-1" aWeb noUpdates).1 ∧
    (update_container oConnectBackendFails "web-1" aWeb noUpdates).1 =
      .ok "Container web-1 updated and recreated" ∧
    RCall.netGet "backend" ∈
      (update_container oConnectBackendFails "web-1" aWeb noUpdates).2 := by
  decide

/-- C4, amended.  After a successful recreate, `update_container`
attempts every secondary network independently — each network in
`networks[1:]` is looked up whatever happened on the previous ones — and
the overall call returns success regardless of connect failures; but the
failures are silently discarded, not returned as warnings. -/
theorem C4_theorem (o : Oracle) (cid : String) (a : Attrs) (u : Updates)
    (hg : o (.getContainer cid) = none) (hs : o .stop = none)
    (hr : o .remove = none)
    (hc : o (.run (mergedRunConfig a u)) = none) :
    (update_container o cid a u).1 =
      .ok ("Container " ++ cid ++ " updated and recreated") ∧
    ∀ n ∈ (u.networks.getD a.networks).drop 1,
      RCall.netGet n ∈ (update_container o cid a u).2 := by
  rw [update_container_ok o cid a u hg hs hr hc]
  refine ⟨rfl, ?_⟩
  intro n hn
  simp only [List.mem_append]
  exact Or.inr (netGet_mem_reattachTrace o _ n hn)

/-- C4, witness: the amended theorem applied to the oracle whose
`connect("backend")` fails. -/
theorem C4_witness :
    (update_container oConnectBackendFails "web-1" aWeb noUpdates).1 =
      .ok "Container web-1 updated and recreated" ∧
    RCall.netGet "backend" ∈
      (update_container oConnectBackendFails "web-1" aWeb noUpdates).2 := by
  have h := C4_theorem oConnectBackendFails "web-1" aWeb noUpdates rfl rfl rfl rfl
  exact ⟨h.1, h.2 "backend" (by decide)⟩

/-- C5, counterexample.  The claim says the stop step is performed only
if the container is currently running, for both recreation paths.  In
`update_container` the stop is unconditional (`old_container.stop()`
with no status check), and the recreate uses `containers.run(...,
detach=True)`, which starts the new container no matter what: on a
container with status `exited`, both the stop and the (starting) run
call appear in the trace. -/
theorem C5_counterexample :
    aExited.status ≠ "running" ∧
    RCall.stop ∈ (update_container allOk "web-1" aExited noUpdates).2 ∧
    RCall.run (mergedRunConfig aExited noUpdates) ∈
      (update_container allOk "web-1" aExited noUpdates).2 := by decide

/-- C5, amended.  Only `attach_volume_to_container` implements the
`wasRunning` protocol: with no mount conflict and a fully successful
runtime, its stop call appears in the trace iff the container was
running at entry, and so does its start call.  `update_container`, by
contrast, always issues the stop call (and its `containers.run`
recreate always starts the new container). -/
theorem C5_theorem (o : Oracle) (cid : String) (a : Attrs) (u : Updates)
    (vn mp md : Str) (ho : ∀ c, o c = none)
    (hc : a.mounts.any (fun m => m.source == vn) = false) :
    (RCall.stop ∈ (attach_volume_to_container o cid a vn mp md).2 ↔
      a.status = "running") ∧
    (RCall.start ∈ (attach_volume_to_container o cid a vn mp md).2 ↔
      a.status = "running") ∧
    RCall.stop ∈ (update_container o cid a u).2 := by
  refine ⟨?_, ?_, ?_⟩
  · by_cases hr : a.status = "running" <;>
      simp [attach_volume_to_container, ho, hc, hr]
  · by_cases hr : a.status = "running" <;>
      simp [attach_volume_to_container, ho, hc, hr]
  · rw [update_container_ok o cid a u (ho _) (ho _) (ho _) (ho _)]
    simp

/-- C5, witness: the amended theorem applied to the concrete running
container and a fresh volume name. -/
theorem C5_witness :
    (RCall.stop ∈ (attach_volume_to_container allOk "web-1" aWeb
        ("newvol".toList) ("/mnt".toList) ("rw".toList)).2 ↔
      aWeb.status = "running") ∧
    (RCall.start ∈ (attach_volume_to_container allOk "web-1" aWeb
        ("newvol".toList) ("/mnt".toList) ("rw".toList)).2 ↔
      aWeb.status = "running") ∧
    RCall.stop ∈ (update_container allOk "web-1" aWeb noUpdates).2 :=
  C5_theorem allOk "web-1" aWeb noUpdates ("newvol".toList) ("/mnt".toList)
    ("rw".toList) (fun c => rfl) (by decide)

/-- C6 (confirmed).  When the requested volume's source name already
appears among the container's mounts, `attach_volume_to_container`
fails with the already-attached error before any destructive action:
the trace contains only the initial inspect — zero mutating runtime
calls (no stop, remove, create or start). -/
theorem C6_theorem (o : Oracle) (cid : String) (a : Attrs)
    (vn mp md : Str) (hg : o (.getContainer cid) = none)
    (hc : a.mounts.any (fun m => m.source == vn) = true) :
    attach_volume_to_container o cid a vn mp md =
      (.error (.alreadyAttached vn), [.getContainer cid]) := by
  simp [attach_volume_to_container, hg, hc]

/-- C6, witness: attaching `appdata`, which is already mounted on the
concrete container. -/
theorem C6_witness :
    attach_volume_to_container allOk "web-1" aWeb ("appdata".toList)
        ("/mnt".toList) ("rw".toList) =
      (.error (.alreadyAttached ("appdata".toList)), [.getContainer "web-1"]) :=
  C6_theorem allOk "web-1" aWeb ("appdata".toList) ("/mnt".toList)
    ("rw".toList) rfl (by decide)

/-- C7 (confirmed).  The per-container CPU percentage equals
`(cpuDelta / systemDelta) * online_cpu_count * 100` when the system
delta is positive (where the CPU count is the length of the current
sample's per-CPU usage list, defaulting to 1), and is exactly 0 when
the system delta is ≤ 0. -/
theorem C7_theorem (precpu cur : CpuStats) :
    (0 < cur.system_cpu_usage - precpu.system_cpu_usage →
      cpu_percent precpu cur =
        ((cur.cpu_usage.total_usage - precpu.cpu_usage.total_usage : ℤ) : ℚ) /
          ((cur.system_cpu_usage - precpu.system_cpu_usage : ℤ) : ℚ) *
          (online_cpu_count cur : ℚ) * 100) ∧
    (cur.system_cpu_usage - precpu.system_cpu_usage ≤ 0 →
      cpu_percent precpu cur = 0) := by
  constructor
  · intro h
    simp [cpu_percent, h]
  · intro h
    simp [cpu_percent, not_lt.mpr h]

/-- The spec's worked example, previous sample:
`{cpu:1000, sys:100000, cpus:2}`. -/
def exPrev : CpuStats :=
  { cpu_usage := { total_usage := 1000, percpu_usage := some [400, 600] }
    system_cpu_usage := 100000 }

/-- The spec's worked example, current sample:
`{cpu:1500, sys:100500, cpus:2}`. -/
def exCur : CpuStats :=
  { cpu_usage := { total_usage := 1500, percpu_usage := some [900, 600] }
    system_cpu_usage := 100500 }

/-- A stale current sample whose system counter has not advanced. -/
def exStale : CpuStats :=
  { cpu_usage := { total_usage := 1500, percpu_usage := some [900, 600] }
    system_cpu_usage := 100000 }

/-- C7, witness: the spec's example pair yields `(500/500)*2*100 = 200`,
and a non-positive system delta yields exactly 0. -/
theorem C7_witness :
    cpu_percent exPrev exCur = 200 ∧ cpu_percent exPrev exStale = 0 := by
  have h1 := (C7_theorem exPrev exCur).1 (by decide)
  have h2 := (C7_theorem exPrev exStale).2 (by decide)
  refine ⟨?_, h2⟩
  rw [h1]
  norm_num [exPrev, exCur, online_cpu_count]

/-- C8, counterexample.  The claim says encode omits the mode segment
exactly when the mode is the default read-write, and that
`decode(encode(m)) == m`.  In the code, encode appends the mode segment
whenever the mount record carries a `Mode` entry — including the default
`rw` — and decode keeps only the first two segments, discarding the
mode: a read-only and a read-write mount encode to different strings
that decode to the same (source, destination) pair, so the round trip
cannot restore `m`. -/
theorem C8_counterexample :
    encodeBind ("appdata".toList) ("/data".toList) (some ("rw".toList)) =
      "appdata:/data:rw".toList ∧
    decodeVol (encodeBind ("appdata".toList) ("/data".toList)
        (some ("ro".toList))) =
      decodeVol (encodeBind ("appdata".toList) ("/data".toList)
        (some ("rw".toList))) := by decide

/-- C8, amended.  The round-trip law holds only for the source and
destination components: for any mount whose source and destination
contain no colon, decoding the encoded bind string recovers exactly the
(source, destination) pair, whatever the optional mode segment was; the
mode itself is discarded by decode, and encode appends it whenever the
mount record carries one, default or not. -/
theorem C8_theorem (s d : Str) (mo : Option Str)
    (hs : ':' ∉ s) (hd : ':' ∉ d) :
    decodeVol (encodeBind s d mo) = some (s, d) := by
  cases mo with
  | none =>
    simp only [encodeBind, decodeVol]
    rw [List.append_nil, pySplit_append hs, pySplit_of_not_mem hd]
  | some m =>
    simp only [encodeBind, decodeVol]
    rw [List.append_assoc, List.cons_append, pySplit_append hs,
      pySplit_append hd]

/-- C8, witness: the amended round trip on a concrete descriptor with no
mode segment. -/
theorem C8_witness :
    decodeVol (encodeBind ("appdata".toList) ("/data".toList) none) =
      some ("appdata".toList, "/data".toList) :=
  C8_theorem ("appdata".toList) ("/data".toList) none (by decide) (by decide)

/-- C9, counterexample.  The claim says a bind string with fewer than 2
colon-delimited segments fails with `MalformedMountSpec`.  In the code
(`if ':' in vol:` with no else) such an entry is silently skipped: with
the patch `volumes=["noColon"]` the update succeeds — there is no error
of any kind, the entry simply vanishes from the computed binds. -/
theorem C9_counterexample :
    decodeVol ("noColon".toList) = none ∧
    (update_container allOk "web-1" aWeb
        { noUpdates with volumes := some ["noColon".toList] }).1 =
      .ok "Container web-1 updated and recreated" ∧
    (volsBinds aWeb { noUpdates with volumes := some ["noColon".toList] }).2 =
      [] := by decide

/-- C9, amended.  A volume entry with fewer than 2 colon-delimited
segments yields no descriptor (`decodeVol = none`) and is silently
ignored: prepending such an entry to the patch's volume list leaves the
whole behaviour of `update_container` — result and trace — unchanged.
No error is raised for it. -/
theorem C9_theorem (o : Oracle) (cid : String) (a : Attrs) (u : Updates)
    (vol : Str) (vs : List Str) (h : (pySplit ':' vol).length < 2) :
    decodeVol vol = none ∧
    update_container o cid a { u with volumes := some (vol :: vs) } =
      update_container o cid a { u with volumes := some vs } := by
  have hdec : decodeVol vol = none := by
    unfold decodeVol
    rcases hp : pySplit ':' vol with _ | ⟨x, _ | ⟨y, ys⟩⟩
    · rfl
    · rfl
    · rw [hp] at h
      simp at h
      omega
  refine ⟨hdec, ?_⟩
  have hvb : volsBinds a { u with volumes := some (vol :: vs) } =
      volsBinds a { u with volumes := some vs } := by
    unfold volsBinds
    simp [hdec]
  have hcfg : mergedRunConfig a { u with volumes := some (vol :: vs) } =
      mergedRunConfig a { u with volumes := some vs } := by
    unfold mergedRunConfig
    rw [hvb]
  simp only [update_container, hcfg]

/-- C9, witness: the amended theorem applied to the concrete malformed
entry `"noColon"`. -/
theorem C9_witness :
    decodeVol ("noColon".toList) = none ∧
    update_container allOk "web-1" aWeb
        { noUpdates with volumes := some ["noColon".toList] } =
      update_container allOk "web-1" aWeb
        { noUpdates with volumes := some [] } :=
  C9_theorem allOk "web-1" aWeb noUpdates ("noColon".toList) [] (by decide)

/-- C10 (confirmed).  Every listed container lands in exactly one status
bucket, so the summary satisfies
`containers_total = running + stopped + exited + created + paused +
other` (the `other` bucket collecting every status outside the five
named ones, kept internal to the counting loop). -/
theorem C10_theorem (statuses : List String) :
    (systemInfoCounts statuses).containers_total =
      (systemInfoCounts statuses).containers_running +
        (systemInfoCounts statuses).containers_stopped +
        (systemInfoCounts statuses).containers_exited +
        (systemInfoCounts statuses).containers_created +
        (systemInfoCounts statuses).containers_paused +
        (countStatuses statuses).other := by
  have h := sumCounts_countStatuses statuses
  simp only [systemInfoCounts, sumCounts] at *
  omega

end DockerManager
